import Mathlib

/-!
Verification of the Job Lifecycle & Partner-Assignment Engine of the
partner-app dashboard.

The definitions below are a shallow embedding of the relevant source files:
  - `app/crud/ip.py`      (assign_ip, unassign_ip)
  - `app/crud/job.py`     (create_job, update_job, delete_job, start_job,
                           pause_job, finish_job, get_job_status_history)
  - `app/utils/ip_assignment.py` (is_admin_allowed_for_ip)
  - `app/services/customer_otp_service.py` (generate_and_store_start_otp,
                           verify_start_otp; the end-OTP pair is
                           structurally identical and not re-embedded)
  - `app/model/ip.py`, `app/model/job.py`, `app/model/job_status_log.py`

Modelling conventions:
  - The relational store is a record of lists (one per table); primary-key
    autoincrement is an explicit counter.  Fiscal columns (rates, expenses),
    the customers table and the jobs_checklists table are not embedded: no
    operation verified here reads them, and the customer/rate upserts of
    `create_job`/`update_job` touch only those disjoint tables.
  - `datetime.utcnow()` is an injected clock: each mutating operation takes
    the current time `now : Nat` as a parameter.
  - Every mutating endpoint of `app/crud` wraps its body in
    `try: ... commit except: rollback; raise`.  The body is embedded as an
    `Except HTTPError DB` computation (the uncommitted session), and the
    endpoint itself as `DB → ... → DB × Option HTTPError` via `runTx`:
    on success the new state is committed, on any error the transaction
    rolls back to the initial state, exactly as the source's
    `db.rollback()` in each `except` clause.
  - `CustomerOTPService` stores `job.start_otp` (an argon2 hash of the
    code) and `job.start_otp_expiry` on the job row; the two attributes are
    always written and cleared together, so they are embedded as one
    optional pair `startOtp : Option (String × Nat)`.  `pwd_context.hash`
    is modelled by the function `otpHash` and `pwd_context.verify c h` by
    `otpHash c == h`; the salted-hash indirection itself is not the
    subject of any property proved here, only which comparisons succeed.
-/

/-- One row of `ip_user` (`app/model/ip.py`, class `ip`): the partner
record, projected to the columns the assignment engine reads. -/
structure IpUser where
  id : Nat
  isAssigned : Bool
  deriving Repr, DecidableEq

/-- One row of `jobs` (`app/model/job.py`, class `Job`), projected to the
columns the lifecycle engine reads.  `startOtp` bundles the dynamically
written `start_otp` / `start_otp_expiry` pair of
`CustomerOTPService`; `startOtpVerified` is the `start_otp_verified`
column. -/
structure Job where
  id : Nat
  name : String
  assignedIpId : Option Nat
  status : String
  startOtp : Option (String × Nat)
  startOtpVerified : Bool
  deriving Repr, DecidableEq

/-- One row of `job_status_logs` (`app/model/job_status_log.py`): the
audit-log entry appended on every lifecycle transition. -/
structure JobStatusLog where
  jobId : Nat
  status : String
  createdAt : Nat
  notes : String
  deriving Repr, DecidableEq

/-- One row of `ip_user_admin_assignments` (`app/model/ip.py`, class
`IPAdminAssignment`): existence authorizes the admin for the partner. -/
structure AdminAssignment where
  ipId : Nat
  adminId : Nat
  deriving Repr, DecidableEq

/-- The relational store: one list per embedded table, plus the
autoincrement counter for `jobs.id`. -/
structure DB where
  ips : List IpUser
  jobs : List Job
  logs : List JobStatusLog
  adminAssignments : List AdminAssignment
  nextJobId : Nat
  deriving Repr, DecidableEq

/-- Value form of `raise HTTPException(status_code=..., detail=...)`. -/
structure HTTPError where
  statusCode : Nat
  detail : String
  deriving Repr, DecidableEq

/-- Embedding of `db.query(ip).filter(ip.id == ip_id).first()`. -/
def findIp (db : DB) (ipId : Nat) : Option IpUser :=
  db.ips.find? (fun p => p.id == ipId)

/-- Embedding of `db.query(Job).filter(Job.id == job_id).first()`. -/
def findJob (db : DB) (jobId : Nat) : Option Job :=
  db.jobs.find? (fun j => j.id == jobId)

/-- Apply an in-place ORM update to the partner row with the given id. -/
def setIp (db : DB) (ipId : Nat) (f : IpUser → IpUser) : DB :=
  { db with ips := db.ips.map (fun p => if p.id == ipId then f p else p) }

/-- Apply an in-place ORM update to the job row with the given id. -/
def setJob (db : DB) (jobId : Nat) (f : Job → Job) : DB :=
  { db with jobs := db.jobs.map (fun j => if j.id == jobId then f j else j) }

/-- Embedding of `is_admin_allowed_for_ip` (`app/utils/ip_assignment.py`): an
`IPAdminAssignment` row for the (ip, admin) pair exists. -/
def is_admin_allowed_for_ip (db : DB) (ipId adminId : Nat) : Bool :=
  db.adminAssignments.any (fun a => a.ipId == ipId && a.adminId == adminId)

/-- Embedding of `assign_ip` (`app/crud/ip.py` lines 40-76), the `commit=False` body:
lock and load the partner row, 404 if missing, 400 with the bound job's
identity if already assigned, 403 if the acting admin is neither
superadmin nor authorized, else set `is_assigned = True`. -/
def assign_ip (db : DB) (ipId adminId : Nat) (isSuperadmin : Bool) :
    Except HTTPError DB :=
  match findIp db ipId with
  | none => .error ⟨404, "IP with ID " ++ toString ipId ++ " not found"⟩
  | some ipUser =>
    if ipUser.isAssigned then
      let base := "IP " ++ toString ipId ++ " is already assigned to another job"
      let detail :=
        match db.jobs.find? (fun j =>
            j.assignedIpId == some ipId && j.status == "in_progress") with
        | some activeJob =>
            base ++ " (Job ID: " ++ toString activeJob.id ++ ", Name: "
              ++ activeJob.name ++ ")"
        | none => base
      .error ⟨400, detail⟩
    else if !isSuperadmin && !(is_admin_allowed_for_ip db ipId adminId) then
      .error ⟨403, "Admin " ++ toString adminId
        ++ " is not allowed to be assigned IP " ++ toString ipId⟩
    else
      .ok (setIp db ipId (fun p => { p with isAssigned := true }))

/-- Embedding of `unassign_ip` (`app/crud/ip.py` lines 78-101), the `commit=False`
body: 404 if the partner is missing, 403 if unauthorized, else set
`is_assigned = False` (with no check that it was true). -/
def unassign_ip (db : DB) (ipId adminId : Nat) (isSuperadmin : Bool) :
    Except HTTPError DB :=
  match findIp db ipId with
  | none => .error ⟨404, "IP with ID " ++ toString ipId ++ " not found"⟩
  | some _ =>
    if !isSuperadmin && !(is_admin_allowed_for_ip db ipId adminId) then
      .error ⟨403, "Admin " ++ toString adminId
        ++ " is not allowed to be unassigned IP " ++ toString ipId⟩
    else
      .ok (setIp db ipId (fun p => { p with isAssigned := false }))

/-- The `try ... db.commit() except ... db.rollback(); raise` frame every
`app/crud/job.py` endpoint wraps around its body: commit the body's
session state on success, roll back to the initial state on any error. -/
def runTx (db : DB) (body : Except HTTPError DB) : DB × Option HTTPError :=
  match body with
  | .ok db' => (db', none)
  | .error e => (db, some e)

/-- The fields of `JobCreate` (`app/schemas/job.py`) read by the embedded
part of `create_job`.  The schema has no `status` field, so
`job_data.pop("status", "created")` in the source always yields
`"created"`. -/
structure JobCreateSpec where
  name : String
  assignedIpId : Option Nat
  deriving Repr, DecidableEq

/-- Embedding of `create_job` (`app/crud/job.py` lines 156-245), body: when the spec
references a partner, validate existence (404), availability (400) and
authorization (403) without mutating the partner; then insert the job row
with status `"created"` and append the `"created"` audit entry. -/
def create_job_body (db : DB) (spec : JobCreateSpec) (userId : Nat)
    (isSuperadmin : Bool) (now : Nat) : Except HTTPError DB :=
  let insert : Except HTTPError DB :=
    let newJob : Job :=
      { id := db.nextJobId, name := spec.name,
        assignedIpId := spec.assignedIpId, status := "created",
        startOtp := none, startOtpVerified := false }
    .ok { db with
          jobs := db.jobs ++ [newJob],
          logs := db.logs ++ [⟨db.nextJobId, "created", now, "Job created"⟩],
          nextJobId := db.nextJobId + 1 }
  match spec.assignedIpId with
  | none => insert
  | some ipId =>
    match findIp db ipId with
    | none => .error ⟨404, "IP with ID " ++ toString ipId ++ " not found"⟩
    | some ipUser =>
      if ipUser.isAssigned then
        .error ⟨400, "IP " ++ toString ipUser.id
          ++ " is already assigned to another job"⟩
      else if !isSuperadmin && !(is_admin_allowed_for_ip db ipId userId) then
        .error ⟨403, "Admin " ++ toString userId
          ++ " is not allowed to be assigned IP " ++ toString ipId⟩
      else
        insert

/-- Endpoint `create_job` with its transaction frame. -/
def create_job (db : DB) (spec : JobCreateSpec) (userId : Nat)
    (isSuperadmin : Bool) (now : Nat) : DB × Option HTTPError :=
  runTx db (create_job_body db spec userId isSuperadmin now)

/-- The fields of `JobUpdate` (`app/schemas/job.py`) read by the embedded
part of `update_job`; `none` means the field was absent from the patch
(`model_dump(exclude_unset=True)`). -/
structure JobUpdatePatch where
  assignedIpId : Option (Option Nat)
  status : Option String
  deriving Repr, DecidableEq

/-- Embedding of `update_job` (`app/crud/job.py` lines 248-340), body: 404 if the job
is missing; when the patch carries `assigned_ip_id` and the job is
`in_progress` with a different partner, unassign the old and assign the
new partner, then write the reference; when the patch carries `status`,
write it directly (the `field_map` loop) — with no state-machine check,
no partner bookkeeping and no audit entry. -/
def update_job_body (db : DB) (jobId : Nat) (patch : JobUpdatePatch)
    (adminId : Nat) (isSuperadmin : Bool) : Except HTTPError DB :=
  match findJob db jobId with
  | none => .error ⟨404, "Job with ID " ++ toString jobId ++ " not found"⟩
  | some job =>
    let afterIp : Except HTTPError DB :=
      match patch.assignedIpId with
      | none => .ok db
      | some newIpId =>
        if job.status == "in_progress" && newIpId != job.assignedIpId then
          match (match job.assignedIpId with
                 | some oldIpId => unassign_ip db oldIpId adminId isSuperadmin
                 | none => .ok db) with
          | .error e => .error e
          | .ok dbA =>
            match (match newIpId with
                   | some n => assign_ip dbA n adminId isSuperadmin
                   | none => .ok dbA) with
            | .error e => .error e
            | .ok dbB =>
              .ok (setJob dbB jobId (fun j => { j with assignedIpId := newIpId }))
        else
          .ok (setJob db jobId (fun j => { j with assignedIpId := newIpId }))
    match afterIp with
    | .error e => .error e
    | .ok db1 =>
      match patch.status with
      | some s => .ok (setJob db1 jobId (fun j => { j with status := s }))
      | none => .ok db1

/-- Endpoint `update_job` with its transaction frame. -/
def update_job (db : DB) (jobId : Nat) (patch : JobUpdatePatch)
    (adminId : Nat) (isSuperadmin : Bool) : DB × Option HTTPError :=
  runTx db (update_job_body db jobId patch adminId isSuperadmin)

/-- Embedding of `delete_job` (`app/crud/job.py` lines 343-363), body: 404 if missing;
if the job references a partner, unassign it (whatever the job's status);
cascade-delete the job's audit entries; delete the job row. -/
def delete_job_body (db : DB) (jobId : Nat) (adminId : Nat)
    (isSuperadmin : Bool) : Except HTTPError DB :=
  match findJob db jobId with
  | none => .error ⟨404, "Job with ID " ++ toString jobId ++ " not found"⟩
  | some job =>
    match (match job.assignedIpId with
           | some ipId => unassign_ip db ipId adminId isSuperadmin
           | none => .ok db) with
    | .error e => .error e
    | .ok db1 =>
      .ok { db1 with
            jobs := db1.jobs.filter (fun j => j.id != jobId),
            logs := db1.logs.filter (fun l => l.jobId != jobId) }

/-- Endpoint `delete_job` with its transaction frame. -/
def delete_job (db : DB) (jobId : Nat) (adminId : Nat)
    (isSuperadmin : Bool) : DB × Option HTTPError :=
  runTx db (delete_job_body db jobId adminId isSuperadmin)

/-- Embedding of `start_job` (`app/crud/job.py` lines 366-401), body: 404 if missing;
400 reporting the current status unless it is `created` or `paused`;
400 if no partner is referenced; else assign the partner, set the status
to `in_progress` and append one audit entry. -/
def start_job_body (db : DB) (jobId : Nat) (adminId : Nat)
    (isSuperadmin : Bool) (notes : Option String) (now : Nat) :
    Except HTTPError DB :=
  match findJob db jobId with
  | none => .error ⟨404, "Job with ID " ++ toString jobId ++ " not found"⟩
  | some job =>
    if !(job.status == "created" || job.status == "paused") then
      .error ⟨400, "Job cannot be started. Current status: " ++ job.status⟩
    else
      match job.assignedIpId with
      | none => .error ⟨400,
          "Cannot start job: No IP assigned. Please edit the job to assign an IP first."⟩
      | some ipId =>
        match assign_ip db ipId adminId isSuperadmin with
        | .error e => .error e
        | .ok db1 =>
          let db2 := setJob db1 jobId (fun j => { j with status := "in_progress" })
          let defaultNotes :=
            if job.status == "paused" then "Job resumed" else "Job started"
          .ok { db2 with
                logs := db2.logs
                  ++ [⟨jobId, "in_progress", now, notes.getD defaultNotes⟩] }

/-- Endpoint `start_job` with its transaction frame. -/
def start_job (db : DB) (jobId : Nat) (adminId : Nat) (isSuperadmin : Bool)
    (notes : Option String) (now : Nat) : DB × Option HTTPError :=
  runTx db (start_job_body db jobId adminId isSuperadmin notes now)

/-- Embedding of `pause_job` (`app/crud/job.py` lines 404-436), body: 404 if missing;
400 unless `in_progress`; unassign the referenced partner if any; set the
status to `paused` and append one audit entry. -/
def pause_job_body (db : DB) (jobId : Nat) (adminId : Nat)
    (isSuperadmin : Bool) (notes : Option String) (now : Nat) :
    Except HTTPError DB :=
  match findJob db jobId with
  | none => .error ⟨404, "Job with ID " ++ toString jobId ++ " not found"⟩
  | some job =>
    if job.status != "in_progress" then
      .error ⟨400, "Only jobs in progress can be paused. Current status: "
        ++ job.status⟩
    else
      match (match job.assignedIpId with
             | some ipId => unassign_ip db ipId adminId isSuperadmin
             | none => .ok db) with
      | .error e => .error e
      | .ok db1 =>
        let db2 := setJob db1 jobId (fun j => { j with status := "paused" })
        .ok { db2 with
              logs := db2.logs
                ++ [⟨jobId, "paused", now, notes.getD "Job paused"⟩] }

/-- Endpoint `pause_job` with its transaction frame. -/
def pause_job (db : DB) (jobId : Nat) (adminId : Nat) (isSuperadmin : Bool)
    (notes : Option String) (now : Nat) : DB × Option HTTPError :=
  runTx db (pause_job_body db jobId adminId isSuperadmin notes now)

/-- Embedding of `finish_job` (`app/crud/job.py` lines 439-471), body: 404 if missing;
400 unless `in_progress`; unassign the referenced partner if any; set the
status to `completed` and append one audit entry. -/
def finish_job_body (db : DB) (jobId : Nat) (adminId : Nat)
    (isSuperadmin : Bool) (notes : Option String) (now : Nat) :
    Except HTTPError DB :=
  match findJob db jobId with
  | none => .error ⟨404, "Job with ID " ++ toString jobId ++ " not found"⟩
  | some job =>
    if job.status != "in_progress" then
      .error ⟨400, "Only jobs in progress can be finished. Current status: "
        ++ job.status⟩
    else
      match (match job.assignedIpId with
             | some ipId => unassign_ip db ipId adminId isSuperadmin
             | none => .ok db) with
      | .error e => .error e
      | .ok db1 =>
        let db2 := setJob db1 jobId (fun j => { j with status := "completed" })
        .ok { db2 with
              logs := db2.logs
                ++ [⟨jobId, "completed", now, notes.getD "Job completed"⟩] }

/-- Endpoint `finish_job` with its transaction frame. -/
def finish_job (db : DB) (jobId : Nat) (adminId : Nat) (isSuperadmin : Bool)
    (notes : Option String) (now : Nat) : DB × Option HTTPError :=
  runTx db (finish_job_body db jobId adminId isSuperadmin notes now)

/-- Embedding of `get_job_status_history` (`app/crud/job.py` lines 474-490): 404 if the
job is missing, else the job's audit entries ordered by
`created_at.desc()`. -/
def get_job_status_history (db : DB) (jobId : Nat) :
    Except HTTPError (List JobStatusLog) :=
  match findJob db jobId with
  | none => .error ⟨404, "Job with ID " ++ toString jobId ++ " not found"⟩
  | some _ =>
    .ok (List.insertionSort (fun a b => b.createdAt ≤ a.createdAt)
      (db.logs.filter (fun l => l.jobId == jobId)))

/-- Default of `settings.OTP_EXPIRY_MINUTES` (`app/config.py`), 10 minutes. -/
def OTP_EXPIRY_MINUTES : Nat := 10

/-- Model of `pwd_context.hash` (argon2) in
`app/services/customer_otp_service.py`: an abstract injective digest;
`pwd_context.verify code h` succeeds exactly when `h` is the digest of
`code`, which the identity map captures for the comparison logic under
verification here. -/
def otpHash (code : String) : String := code

/-- Model of `pwd_context.verify(str(otp).strip(), stored)`: the submitted
code (taken already stripped) matches the stored digest. -/
def otpVerify (submitted stored : String) : Bool :=
  otpHash submitted == stored

/-- Embedding of `CustomerOTPService.generate_and_store_start_otp`
(`app/services/customer_otp_service.py` lines 22-40): the freshly
generated code is a parameter (`generate_otp` draws it at random); raises
if the job is missing, else stores the digest with expiry
`now + OTP_EXPIRY_MINUTES` (the clock counted in minutes) and resets
`start_otp_verified`. -/
def generate_and_store_start_otp (db : DB) (jobId : Nat) (otp : String)
    (now : Nat) : Option DB :=
  match findJob db jobId with
  | none => none
  | some _ =>
    some (setJob db jobId (fun j =>
      { j with startOtp := some (otpHash otp, now + OTP_EXPIRY_MINUTES),
               startOtpVerified := false }))

/-- Embedding of `CustomerOTPService.verify_start_otp`
(`app/services/customer_otp_service.py` lines 42-72): false if the job or
its stored code is missing; if the expiry lies strictly in the past,
clear the stored code (and its expiry) and return false; if the digest
does not match, return false with no state change; on a match, clear the
stored code, set `start_otp_verified` and return true.  Returns the
result together with the committed state. -/
def verify_start_otp (db : DB) (jobId : Nat) (otp : String) (now : Nat) :
    Bool × DB :=
  match findJob db jobId with
  | none => (false, db)
  | some job =>
    match job.startOtp with
    | none => (false, db)
    | some (storedHash, expiry) =>
      if expiry < now then
        (false, setJob db jobId (fun j => { j with startOtp := none }))
      else if !(otpVerify otp storedHash) then
        (false, db)
      else
        (true, setJob db jobId (fun j =>
          { j with startOtp := none, startOtpVerified := true }))

/-- The exclusive-assignment invariant of spec §3 (invariant 1) as a
decidable check: every partner has at most one `in_progress` job
referencing it, and `is_assigned` is true exactly when one exists. -/
def ipInvariant (db : DB) : Bool :=
  db.ips.all (fun p =>
    let active := db.jobs.filter (fun j =>
      j.assignedIpId == some p.id && j.status == "in_progress")
    decide (active.length ≤ 1) && (p.isAssigned == decide (active.length = 1)))

/-- Initial store for the invariant-violation trace: one unassigned
partner (id 1), no jobs, a superadmin acting throughout. -/
def violationDb0 : DB :=
  { ips := [⟨1, false⟩], jobs := [], logs := [], adminAssignments := [],
    nextJobId := 1 }

/-- Step 1: create job 1 referencing partner 1. -/
def violationS1 : DB × Option HTTPError :=
  create_job violationDb0 ⟨"J1", some 1⟩ 9 true 0

/-- Step 2: start job 1 (partner 1 becomes assigned, job 1 in_progress). -/
def violationS2 : DB × Option HTTPError :=
  start_job violationS1.1 1 9 true none 1

/-- Step 3: pause job 1 (partner 1 released; job 1 keeps its
`assigned_ip_id` reference while `paused`). -/
def violationS3 : DB × Option HTTPError :=
  pause_job violationS2.1 1 9 true none 2

/-- Step 4: create job 2 referencing partner 1 (allowed: partner 1 is
unassigned after the pause). -/
def violationS4 : DB × Option HTTPError :=
  create_job violationS3.1 ⟨"J2", some 1⟩ 9 true 3

/-- Step 5: start job 2 (partner 1 assigned again, job 2 in_progress). -/
def violationS5 : DB × Option HTTPError :=
  start_job violationS4.1 2 9 true none 4

/-- Step 6: delete the paused job 1.  `delete_job` unassigns the partner
referenced by the deleted job regardless of the job's status, so it
clears `is_assigned` of partner 1 even though job 2 is `in_progress` with
partner 1. -/
def violationS6 : DB × Option HTTPError :=
  delete_job violationS5.1 1 9 true

/-- C1: the exclusive-assignment invariant is NOT preserved by every
sequence of the exposed operations.  Along the concrete trace
create(J1,P1); start(J1); pause(J1); create(J2,P1); start(J2);
delete(J1) every step succeeds, yet the final store has job 2
`in_progress` with partner 1 while partner 1's `is_assigned` is false:
`delete_job` unassigns the partner referenced by the deleted job
regardless of the job's status, clearing a flag owned by another job's
active binding.  (From here partner 1 can be started on a further job,
double-booking it.)  This contradicts the spec's core guarantee, so the
code, not the claim, is at fault. -/
theorem C1_exclusive_assignment_invariant_violated :
    (violationS1.2 = none ∧ violationS2.2 = none ∧ violationS3.2 = none ∧
     violationS4.2 = none ∧ violationS5.2 = none ∧ violationS6.2 = none) ∧
    findJob violationS6.1 2 =
      some { id := 2, name := "J2", assignedIpId := some 1,
             status := "in_progress", startOtp := none,
             startOtpVerified := false } ∧
    findIp violationS6.1 1 = some { id := 1, isAssigned := false } ∧
    ipInvariant violationS6.1 = false := by
  refine ⟨⟨rfl, rfl, rfl, rfl, rfl, rfl⟩, rfl, rfl, rfl⟩

theorem setIp_logs (db : DB) (ipId : Nat) (f : IpUser → IpUser) :
    (setIp db ipId f).logs = db.logs := rfl

theorem setJob_logs (db : DB) (jobId : Nat) (f : Job → Job) :
    (setJob db jobId f).logs = db.logs := rfl

theorem assign_ip_ok_logs {db db' : DB} {ipId adminId : Nat} {s : Bool}
    (h : assign_ip db ipId adminId s = .ok db') : db'.logs = db.logs := by
  unfold assign_ip at h
  split at h
  · exact Except.noConfusion h
  · split at h
    · exact Except.noConfusion h
    · split at h
      · exact Except.noConfusion h
      · simp only [Except.ok.injEq] at h
        subst h
        rfl

theorem unassign_ip_ok_logs {db db' : DB} {ipId adminId : Nat} {s : Bool}
    (h : unassign_ip db ipId adminId s = .ok db') : db'.logs = db.logs := by
  unfold unassign_ip at h
  split at h
  · exact Except.noConfusion h
  · split at h
    · exact Except.noConfusion h
    · simp only [Except.ok.injEq] at h
      subst h
      rfl

/-- Store for the audit counterexample: one job `in_progress`, no audit
entries yet. -/
def auditDb : DB :=
  { ips := [],
    jobs := [⟨1, "J", none, "in_progress", none, false⟩],
    logs := [], adminAssignments := [], nextJobId := 2 }

/-- C2 is refuted at a concrete input: `update_job` with a patch carrying
`status := "completed"` succeeds and changes the job's status, yet
appends no `AuditEntry` at all (the log table stays empty), contradicting
"exactly one new AuditEntry" for an update whose patch contains a
status. -/
theorem C2_update_status_change_appends_no_audit_entry :
    (update_job auditDb 1 ⟨none, some "completed"⟩ 9 true).2 = none ∧
    findJob (update_job auditDb 1 ⟨none, some "completed"⟩ 9 true).1 1 =
      some { id := 1, name := "J", assignedIpId := none,
             status := "completed", startOtp := none,
             startOtpVerified := false } ∧
    (update_job auditDb 1 ⟨none, some "completed"⟩ 9 true).1.logs = [] := by
  exact ⟨rfl, rfl, rfl⟩

theorem runTx_ok {db db' : DB} {body : Except HTTPError DB}
    (h : runTx db body = (db', none)) : body = .ok db' := by
  cases body with
  | ok d =>
    simp only [runTx, Prod.mk.injEq] at h
    rw [h.1]
  | error e =>
    simp only [runTx, Prod.mk.injEq] at h
    exact absurd h.2 (by simp)

theorem start_ok_logs {db db' : DB} {jobId adminId : Nat} {isSuper : Bool}
    {notes : Option String} {now : Nat}
    (h : start_job db jobId adminId isSuper notes now = (db', none)) :
    ∃ n, db'.logs = db.logs ++ [⟨jobId, "in_progress", now, n⟩] := by
  have hbody := runTx_ok h
  unfold start_job_body at hbody
  rcases hfind : findJob db jobId with _ | job
  · simp only [hfind] at hbody
    exact Except.noConfusion hbody
  · simp only [hfind] at hbody
    by_cases hst : (!(job.status == "created" || job.status == "paused")) = true
    · rw [if_pos hst] at hbody
      exact Except.noConfusion hbody
    · rw [if_neg hst] at hbody
      rcases hip : job.assignedIpId with _ | ipId
      · simp only [hip] at hbody
        exact Except.noConfusion hbody
      · simp only [hip] at hbody
        rcases hassign : assign_ip db ipId adminId isSuper with e | db1
        · simp only [hassign] at hbody
          exact Except.noConfusion hbody
        · simp only [hassign, Except.ok.injEq] at hbody
          subst hbody
          refine ⟨notes.getD
            (if job.status == "paused" then "Job resumed" else "Job started"), ?_⟩
          simp only [setJob_logs]
          rw [assign_ip_ok_logs hassign]

theorem pause_ok_logs {db db' : DB} {jobId adminId : Nat} {isSuper : Bool}
    {notes : Option String} {now : Nat}
    (h : pause_job db jobId adminId isSuper notes now = (db', none)) :
    ∃ n, db'.logs = db.logs ++ [⟨jobId, "paused", now, n⟩] := by
  have hbody := runTx_ok h
  unfold pause_job_body at hbody
  rcases hfind : findJob db jobId with _ | job
  · simp only [hfind] at hbody
    exact Except.noConfusion hbody
  · simp only [hfind] at hbody
    by_cases hst : (job.status != "in_progress") = true
    · rw [if_pos hst] at hbody
      exact Except.noConfusion hbody
    · rw [if_neg hst] at hbody
      rcases hip : job.assignedIpId with _ | ipId
      · simp only [hip, Except.ok.injEq] at hbody
        subst hbody
        exact ⟨notes.getD "Job paused", by simp only [setJob_logs]⟩
      · simp only [hip] at hbody
        rcases hun : unassign_ip db ipId adminId isSuper with e | db1
        · simp only [hun] at hbody
          exact Except.noConfusion hbody
        · simp only [hun, Except.ok.injEq] at hbody
          subst hbody
          refine ⟨notes.getD "Job paused", ?_⟩
          simp only [setJob_logs]
          rw [unassign_ip_ok_logs hun]

theorem finish_ok_logs {db db' : DB} {jobId adminId : Nat} {isSuper : Bool}
    {notes : Option String} {now : Nat}
    (h : finish_job db jobId adminId isSuper notes now = (db', none)) :
    ∃ n, db'.logs = db.logs ++ [⟨jobId, "completed", now, n⟩] := by
  have hbody := runTx_ok h
  unfold finish_job_body at hbody
  rcases hfind : findJob db jobId with _ | job
  · simp only [hfind] at hbody
    exact Except.noConfusion hbody
  · simp only [hfind] at hbody
    by_cases hst : (job.status != "in_progress") = true
    · rw [if_pos hst] at hbody
      exact Except.noConfusion hbody
    · rw [if_neg hst] at hbody
      rcases hip : job.assignedIpId with _ | ipId
      · simp only [hip, Except.ok.injEq] at hbody
        subst hbody
        exact ⟨notes.getD "Job completed", by simp only [setJob_logs]⟩
      · simp only [hip] at hbody
        rcases hun : unassign_ip db ipId adminId isSuper with e | db1
        · simp only [hun] at hbody
          exact Except.noConfusion hbody
        · simp only [hun, Except.ok.injEq] at hbody
          subst hbody
          refine ⟨notes.getD "Job completed", ?_⟩
          simp only [setJob_logs]
          rw [unassign_ip_ok_logs hun]

theorem update_ok_logs {db db' : DB} {jobId adminId : Nat}
    {patch : JobUpdatePatch} {isSuper : Bool}
    (h : update_job db jobId patch adminId isSuper = (db', none)) :
    db'.logs = db.logs := by
  have hbody := runTx_ok h
  unfold update_job_body at hbody
  rcases hfind : findJob db jobId with _ | job
  · simp only [hfind] at hbody
    exact Except.noConfusion hbody
  · simp only [hfind] at hbody
    rcases hpA : patch.assignedIpId with _ | newIpId
    · simp only [hpA] at hbody
      rcases hpS : patch.status with _ | s
      · simp only [hpS, Except.ok.injEq] at hbody
        subst hbody
        rfl
      · simp only [hpS, Except.ok.injEq] at hbody
        subst hbody
        simp only [setJob_logs]
    · simp only [hpA] at hbody
      by_cases hcond :
          (job.status == "in_progress" && newIpId != job.assignedIpId) = true
      · rw [if_pos hcond] at hbody
        rcases hold : job.assignedIpId with _ | oldIpId
        · simp only [hold] at hbody
          rcases hnew : newIpId with _ | n
          · simp only [hnew] at hbody
            rcases hpS : patch.status with _ | s
            · simp only [hpS, Except.ok.injEq] at hbody
              subst hbody
              simp only [setJob_logs]
            · simp only [hpS, Except.ok.injEq] at hbody
              subst hbody
              simp only [setJob_logs]
          · simp only [hnew] at hbody
            rcases hassign : assign_ip db n adminId isSuper with e | dbB
            · simp only [hassign] at hbody
              exact Except.noConfusion hbody
            · simp only [hassign] at hbody
              rcases hpS : patch.status with _ | s
              · simp only [hpS, Except.ok.injEq] at hbody
                subst hbody
                simp only [setJob_logs]
                exact assign_ip_ok_logs hassign
              · simp only [hpS, Except.ok.injEq] at hbody
                subst hbody
                simp only [setJob_logs]
                exact assign_ip_ok_logs hassign
        · simp only [hold] at hbody
          rcases hun : unassign_ip db oldIpId adminId isSuper with e | dbA
          · simp only [hun] at hbody
            exact Except.noConfusion hbody
          · simp only [hun] at hbody
            rcases hnew : newIpId with _ | n
            · simp only [hnew] at hbody
              rcases hpS : patch.status with _ | s
              · simp only [hpS, Except.ok.injEq] at hbody
                subst hbody
                simp only [setJob_logs]
                exact unassign_ip_ok_logs hun
              · simp only [hpS, Except.ok.injEq] at hbody
                subst hbody
                simp only [setJob_logs]
                exact unassign_ip_ok_logs hun
            · simp only [hnew] at hbody
              rcases hassign : assign_ip dbA n adminId isSuper with e | dbB
              · simp only [hassign] at hbody
                exact Except.noConfusion hbody
              · simp only [hassign] at hbody
                rcases hpS : patch.status with _ | s
                · simp only [hpS, Except.ok.injEq] at hbody
                  subst hbody
                  simp only [setJob_logs]
                  rw [assign_ip_ok_logs hassign, unassign_ip_ok_logs hun]
                · simp only [hpS, Except.ok.injEq] at hbody
                  subst hbody
                  simp only [setJob_logs]
                  rw [assign_ip_ok_logs hassign, unassign_ip_ok_logs hun]
      · rw [if_neg hcond] at hbody
        rcases hpS : patch.status with _ | s
        · simp only [hpS, Except.ok.injEq] at hbody
          subst hbody
          simp only [setJob_logs]
        · simp only [hpS, Except.ok.injEq] at hbody
          subst hbody
          simp only [setJob_logs]

theorem delete_ok_logs {db db' : DB} {jobId adminId : Nat} {isSuper : Bool}
    (h : delete_job db jobId adminId isSuper = (db', none)) :
    db'.logs = db.logs.filter (fun l => l.jobId != jobId) := by
  have hbody := runTx_ok h
  unfold delete_job_body at hbody
  rcases hfind : findJob db jobId with _ | job
  · simp only [hfind] at hbody
    exact Except.noConfusion hbody
  · simp only [hfind] at hbody
    rcases hip : job.assignedIpId with _ | ipId
    · simp only [hip, Except.ok.injEq] at hbody
      subst hbody
      rfl
    · simp only [hip] at hbody
      rcases hun : unassign_ip db ipId adminId isSuper with e | db1
      · simp only [hun] at hbody
        exact Except.noConfusion hbody
      · simp only [hun, Except.ok.injEq] at hbody
        subst hbody
        show db1.logs.filter _ = _
        rw [unassign_ip_ok_logs hun]

theorem create_ok_logs {db db' : DB} {spec : JobCreateSpec} {userId : Nat}
    {isSuper : Bool} {now : Nat}
    (h : create_job db spec userId isSuper now = (db', none)) :
    db'.logs = db.logs ++ [⟨db.nextJobId, "created", now, "Job created"⟩] := by
  have hbody := runTx_ok h
  unfold create_job_body at hbody
  rcases hsp : spec.assignedIpId with _ | ipId
  · simp only [hsp, Except.ok.injEq] at hbody
    subst hbody
    rfl
  · simp only [hsp] at hbody
    rcases hfind : findIp db ipId with _ | ipUser
    · simp only [hfind] at hbody
      exact Except.noConfusion hbody
    · simp only [hfind] at hbody
      by_cases ha : ipUser.isAssigned = true
      · rw [if_pos ha] at hbody
        exact Except.noConfusion hbody
      · rw [if_neg ha] at hbody
        by_cases hb : (!isSuper && !(is_admin_allowed_for_ip db ipId userId)) = true
        · rw [if_pos hb] at hbody
          exact Except.noConfusion hbody
        · rw [if_neg hb] at hbody
          simp only [Except.ok.injEq] at hbody
          subst hbody
          rfl

/-- C2, amended: every status change performed by a lifecycle action
(start, pause, finish) appends exactly one new AuditEntry recording the
new status; `update_job`, however, changes a status carried in its patch
WITHOUT appending any entry; no operation mutates existing entries
(start/pause/finish only append, update leaves the log table untouched),
and entries are removed only by `delete_job`'s cascade, which removes
exactly the deleted job's entries. -/
theorem C2_audit_entries_per_transition :
    (∀ db jobId adminId isSuper notes now db',
       start_job db jobId adminId isSuper notes now = (db', none) →
       ∃ n, db'.logs = db.logs ++ [⟨jobId, "in_progress", now, n⟩]) ∧
    (∀ db jobId adminId isSuper notes now db',
       pause_job db jobId adminId isSuper notes now = (db', none) →
       ∃ n, db'.logs = db.logs ++ [⟨jobId, "paused", now, n⟩]) ∧
    (∀ db jobId adminId isSuper notes now db',
       finish_job db jobId adminId isSuper notes now = (db', none) →
       ∃ n, db'.logs = db.logs ++ [⟨jobId, "completed", now, n⟩]) ∧
    (∀ db jobId patch adminId isSuper db',
       update_job db jobId patch adminId isSuper = (db', none) →
       db'.logs = db.logs) ∧
    (∀ db jobId adminId isSuper db',
       delete_job db jobId adminId isSuper = (db', none) →
       db'.logs = db.logs.filter (fun l => l.jobId != jobId)) := by
  refine ⟨?_, ?_, ?_, ?_, ?_⟩
  · intro db jobId adminId isSuper notes now db' h
    exact start_ok_logs h
  · intro db jobId adminId isSuper notes now db' h
    exact pause_ok_logs h
  · intro db jobId adminId isSuper notes now db' h
    exact finish_ok_logs h
  · intro db jobId patch adminId isSuper db' h
    exact update_ok_logs h
  · intro db jobId adminId isSuper db' h
    exact delete_ok_logs h

/-- Store for witnesses: one unassigned partner and one `created` job
referencing it, with one audit entry. -/
def witnessDb : DB :=
  { ips := [⟨1, false⟩],
    jobs := [⟨1, "W", some 1, "created", none, false⟩],
    logs := [⟨1, "created", 0, "Job created"⟩],
    adminAssignments := [], nextJobId := 2 }

theorem C2_audit_entries_per_transition_witness :
    ∃ n, (start_job witnessDb 1 9 true none 5).1.logs =
      witnessDb.logs ++ [⟨1, "in_progress", 5, n⟩] :=
  C2_audit_entries_per_transition.1 witnessDb 1 9 true none 5
    (start_job witnessDb 1 9 true none 5).1 rfl

theorem runTx_error {db : DB} {body : Except HTTPError DB} {e : HTTPError}
    (h : (runTx db body).2 = some e) : (runTx db body).1 = db := by
  cases body with
  | ok d => simp [runTx] at h
  | error e' => rfl

/-- C3: each lifecycle action is atomic.  Whenever `start_job`,
`pause_job`, `finish_job` or `delete_job` reports an error (not found,
invalid state, missing partner, assignment conflict, authorization
failure), the committed state equals the initial state: the `except`
clause of each endpoint rolls the transaction back before any commit, so
no partner flag is left orphaned and no audit entry of the failed
transition survives. -/
theorem C3_lifecycle_actions_atomic :
    (∀ db jobId adminId isSuper notes now e,
       (start_job db jobId adminId isSuper notes now).2 = some e →
       (start_job db jobId adminId isSuper notes now).1 = db) ∧
    (∀ db jobId adminId isSuper notes now e,
       (pause_job db jobId adminId isSuper notes now).2 = some e →
       (pause_job db jobId adminId isSuper notes now).1 = db) ∧
    (∀ db jobId adminId isSuper notes now e,
       (finish_job db jobId adminId isSuper notes now).2 = some e →
       (finish_job db jobId adminId isSuper notes now).1 = db) ∧
    (∀ db jobId adminId isSuper e,
       (delete_job db jobId adminId isSuper).2 = some e →
       (delete_job db jobId adminId isSuper).1 = db) := by
  refine ⟨?_, ?_, ?_, ?_⟩
  · intro db jobId adminId isSuper notes now e h
    exact runTx_error h
  · intro db jobId adminId isSuper notes now e h
    exact runTx_error h
  · intro db jobId adminId isSuper notes now e h
    exact runTx_error h
  · intro db jobId adminId isSuper e h
    exact runTx_error h

theorem C3_lifecycle_actions_atomic_witness :
    (start_job witnessDb 99 9 true none 0).1 = witnessDb ∧
    (pause_job witnessDb 1 9 true none 0).1 = witnessDb ∧
    (finish_job witnessDb 1 9 true none 0).1 = witnessDb ∧
    (delete_job witnessDb 99 9 true).1 = witnessDb :=
  ⟨C3_lifecycle_actions_atomic.1 witnessDb 99 9 true none 0 ⟨404,
      "Job with ID " ++ toString 99 ++ " not found"⟩ rfl,
   C3_lifecycle_actions_atomic.2.1 witnessDb 1 9 true none 0 ⟨400,
      "Only jobs in progress can be paused. Current status: created"⟩ rfl,
   C3_lifecycle_actions_atomic.2.2.1 witnessDb 1 9 true none 0 ⟨400,
      "Only jobs in progress can be finished. Current status: created"⟩ rfl,
   C3_lifecycle_actions_atomic.2.2.2 witnessDb 99 9 true ⟨404,
      "Job with ID " ++ toString 99 ++ " not found"⟩ rfl⟩

/-- The conflict message `assign_ip` raises when the partner is already
assigned, including the bound `in_progress` job's identity when one is
discoverable (`app/crud/ip.py` lines 47-57). -/
def conflictDetail (db : DB) (ipId : Nat) : String :=
  let base := "IP " ++ toString ipId ++ " is already assigned to another job"
  match db.jobs.find? (fun j =>
      j.assignedIpId == some ipId && j.status == "in_progress") with
  | some activeJob =>
      base ++ " (Job ID: " ++ toString activeJob.id ++ ", Name: "
        ++ activeJob.name ++ ")"
  | none => base

theorem assign_ip_conflict {db : DB} {ipId adminId : Nat} {isSuper : Bool}
    {p : IpUser} (hfind : findIp db ipId = some p)
    (hass : p.isAssigned = true) :
    assign_ip db ipId adminId isSuper = .error ⟨400, conflictDetail db ipId⟩ := by
  unfold assign_ip conflictDetail
  simp only [hfind]
  rw [if_pos hass]

/-- Store for the conflict counterexample: partner 1 is assigned and
bound `in_progress` to job 1; job 2 (status `created`) also references
partner 1. -/
def conflictDb : DB :=
  { ips := [⟨1, true⟩],
    jobs := [⟨1, "J1", some 1, "in_progress", none, false⟩,
             ⟨2, "J2", some 1, "created", none, false⟩],
    logs := [], adminAssignments := [], nextJobId := 3 }

/-- C4 is refuted at a concrete input: starting job 2, whose partner 1 is
already assigned, surfaces the conflict as HTTP status 400, not 409 (no
handler in the codebase ever emits 409); the detail does include the
bound job's identity. -/
theorem C4_conflict_surfaced_as_400_not_409 :
    (start_job conflictDb 2 9 true none 0).2 =
      some ⟨400,
        ("IP " ++ toString 1 ++ " is already assigned to another job")
          ++ " (Job ID: " ++ toString 1 ++ ", Name: " ++ "J1" ++ ")"⟩ ∧
    ∀ e, (start_job conflictDb 2 9 true none 0).2 = some e →
      e.statusCode ≠ 409 := by
  constructor
  · rfl
  · intro e he
    have : e = ⟨400, ("IP " ++ toString 1 ++ " is already assigned to another job")
        ++ " (Job ID: " ++ toString 1 ++ ", Name: " ++ "J1" ++ ")"⟩ := by
      have h0 : (start_job conflictDb 2 9 true none 0).2 =
          some ⟨400, ("IP " ++ toString 1 ++ " is already assigned to another job")
            ++ " (Job ID: " ++ toString 1 ++ ", Name: " ++ "J1" ++ ")"⟩ := rfl
      rw [h0] at he
      exact (Option.some.injEq _ _ ▸ he).symm
    rw [this]
    decide

/-- C4, amended: assigning a partner whose `is_assigned` is already true
fails with a Conflict error surfaced as HTTP 400 (the codebase never
emits 409), whose detail names the currently-bound `in_progress` job
(id and name) when such a job exists; consequently starting any
startable job that references that partner fails the same way and leaves
the state unchanged. -/
theorem C4_conflict_error_shape :
    (∀ db ipId adminId isSuper p,
       findIp db ipId = some p → p.isAssigned = true →
       assign_ip db ipId adminId isSuper =
         .error ⟨400, conflictDetail db ipId⟩ ∧
       (∀ j, db.jobs.find? (fun j => j.assignedIpId == some ipId
            && j.status == "in_progress") = some j →
          conflictDetail db ipId =
            ("IP " ++ toString ipId ++ " is already assigned to another job")
              ++ " (Job ID: " ++ toString j.id ++ ", Name: " ++ j.name ++ ")")) ∧
    (∀ db jobId ipId adminId isSuper notes now job p,
       findJob db jobId = some job →
       (job.status == "created" || job.status == "paused") = true →
       job.assignedIpId = some ipId →
       findIp db ipId = some p → p.isAssigned = true →
       start_job db jobId adminId isSuper notes now =
         (db, some ⟨400, conflictDetail db ipId⟩)) := by
  constructor
  · intro db ipId adminId isSuper p hfind hass
    refine ⟨assign_ip_conflict hfind hass, ?_⟩
    intro j hj
    unfold conflictDetail
    rw [hj]
  · intro db jobId ipId adminId isSuper notes now job p hfind hst hip hfindIp hass
    unfold start_job runTx start_job_body
    simp only [hfind]
    rw [if_neg (by rw [hst]; simp)]
    simp only [hip]
    rw [assign_ip_conflict hfindIp hass]

theorem C4_conflict_error_shape_witness :
    start_job conflictDb 2 7 true none 0 =
      (conflictDb, some ⟨400, conflictDetail conflictDb 1⟩) :=
  C4_conflict_error_shape.2 conflictDb 2 1 7 true none 0
    ⟨2, "J2", some 1, "created", none, false⟩ ⟨1, true⟩
    rfl rfl rfl rfl rfl

/-- C5: `start_job` preconditions.  From a status that is neither
`created` nor `paused` it fails with a 400 reporting the current status;
from a startable status with no partner reference it fails with the
"No IP assigned" validation error; in both cases the state is returned
unchanged. -/
theorem C5_start_preconditions :
    (∀ db jobId adminId isSuper notes now job,
       findJob db jobId = some job →
       (job.status == "created" || job.status == "paused") = false →
       start_job db jobId adminId isSuper notes now =
         (db, some ⟨400,
           "Job cannot be started. Current status: " ++ job.status⟩)) ∧
    (∀ db jobId adminId isSuper notes now job,
       findJob db jobId = some job →
       (job.status == "created" || job.status == "paused") = true →
       job.assignedIpId = none →
       start_job db jobId adminId isSuper notes now =
         (db, some ⟨400,
           "Cannot start job: No IP assigned. Please edit the job to assign an IP first."⟩)) := by
  constructor
  · intro db jobId adminId isSuper notes now job hfind hst
    unfold start_job runTx start_job_body
    simp only [hfind]
    rw [if_pos (show (!(job.status == "created" || job.status == "paused")) = true by
      rw [hst]; rfl)]
  · intro db jobId adminId isSuper notes now job hfind hst hip
    unfold start_job runTx start_job_body
    simp only [hfind]
    rw [if_neg (by rw [hst]; simp)]
    simp only [hip]

/-- Store for the C5 witness: job 1 is `completed` (not startable), job 2
is `created` with no partner reference. -/
def preconDb : DB :=
  { ips := [],
    jobs := [⟨1, "D", none, "completed", none, false⟩,
             ⟨2, "N", none, "created", none, false⟩],
    logs := [], adminAssignments := [], nextJobId := 3 }

theorem C5_start_preconditions_witness :
    start_job preconDb 1 9 true none 0 =
      (preconDb, some ⟨400,
        "Job cannot be started. Current status: " ++ "completed"⟩) ∧
    start_job preconDb 2 9 true none 0 =
      (preconDb, some ⟨400,
        "Cannot start job: No IP assigned. Please edit the job to assign an IP first."⟩) :=
  ⟨C5_start_preconditions.1 preconDb 1 9 true none 0
      ⟨1, "D", none, "completed", none, false⟩ rfl rfl,
   C5_start_preconditions.2 preconDb 2 9 true none 0
      ⟨2, "N", none, "created", none, false⟩ rfl rfl rfl⟩

/-- Newest-first ordering on audit entries, the order produced by
`order_by(JobStatusLog.created_at.desc())`. -/
def newestFirst (a b : JobStatusLog) : Prop :=
  b.createdAt ≤ a.createdAt

instance : DecidableRel newestFirst :=
  fun a b => Nat.decLe b.createdAt a.createdAt

instance : IsTotal JobStatusLog newestFirst :=
  ⟨fun a b => Nat.le_total b.createdAt a.createdAt⟩

instance : IsTrans JobStatusLog newestFirst :=
  ⟨fun _ _ _ hab hbc => Nat.le_trans hbc hab⟩

/-- Store for the history-order counterexample: job 1 with two audit
entries, at times 0 and 1. -/
def historyDb : DB :=
  { ips := [],
    jobs := [⟨1, "H", none, "in_progress", none, false⟩],
    logs := [⟨1, "created", 0, "a"⟩, ⟨1, "in_progress", 1, "b"⟩],
    adminAssignments := [], nextJobId := 2 }

/-- C6 is refuted at a concrete input: for a job whose two audit entries
have timestamps 0 and 1, `get_job_status_history` returns the entry with
timestamp 1 first — the result is not ascending by timestamp (the query
orders by `created_at.desc()`). -/
theorem C6_history_not_ascending :
    get_job_status_history historyDb 1 =
      .ok [⟨1, "in_progress", 1, "b"⟩, ⟨1, "created", 0, "a"⟩] ∧
    ¬ ([(⟨1, "in_progress", 1, "b"⟩ : JobStatusLog), ⟨1, "created", 0, "a"⟩].Sorted
        (fun a b => a.createdAt ≤ b.createdAt)) := by
  constructor
  · rfl
  · intro h
    have := List.rel_of_sorted_cons h ⟨1, "created", 0, "a"⟩ (by simp)
    exact absurd this (by decide)

/-- C6, amended: `get_job_status_history` returns exactly the job's audit
entries (a permutation of the log rows with that job id), sorted
DESCENDING by timestamp — newest first, not ascending. -/
theorem C6_history_sorted_descending :
    ∀ db jobId l, get_job_status_history db jobId = .ok l →
      l.Sorted newestFirst ∧
      l.Perm (db.logs.filter (fun e => e.jobId == jobId)) := by
  intro db jobId l h
  unfold get_job_status_history at h
  rcases hfind : findJob db jobId with _ | job
  · simp only [hfind] at h
    exact Except.noConfusion h
  · simp only [hfind, Except.ok.injEq] at h
    subst h
    exact ⟨List.sorted_insertionSort _ _, List.perm_insertionSort _ _⟩

theorem C6_history_sorted_descending_witness :
    (([⟨1, "in_progress", 1, "b"⟩, ⟨1, "created", 0, "a"⟩] :
        List JobStatusLog).Sorted newestFirst) ∧
    (([⟨1, "in_progress", 1, "b"⟩, ⟨1, "created", 0, "a"⟩] :
        List JobStatusLog).Perm
      (historyDb.logs.filter (fun e => e.jobId == 1))) :=
  C6_history_sorted_descending historyDb 1
    [⟨1, "in_progress", 1, "b"⟩, ⟨1, "created", 0, "a"⟩] rfl

theorem find?_map_guard {l : List Job} {jobId : Nat} {f : Job → Job}
    (hf : ∀ j, (f j).id = j.id) {j : Job}
    (h : l.find? (fun x => x.id == jobId) = some j) :
    (l.map (fun x => if x.id == jobId then f x else x)).find?
      (fun x => x.id == jobId) = some (f j) := by
  induction l with
  | nil => exact Option.noConfusion h
  | cons a t ih =>
    by_cases ha : (a.id == jobId) = true
    · simp only [List.find?_cons, ha] at h
      obtain rfl : a = j := Option.some.inj h
      rw [List.map_cons, if_pos ha, List.find?_cons, hf a, ha]
    · have ha' : (a.id == jobId) = false := by
        rwa [Bool.not_eq_true] at ha
      simp only [List.find?_cons, ha'] at h
      rw [List.map_cons, if_neg ha, List.find?_cons, ha']
      exact ih h

theorem findJob_setJob {db : DB} {jobId : Nat} {f : Job → Job}
    (hf : ∀ j, (f j).id = j.id) {j : Job} (h : findJob db jobId = some j) :
    findJob (setJob db jobId f) jobId = some (f j) := by
  unfold findJob setJob at *
  exact find?_map_guard hf h

/-- Store for the OTC counterexamples/witnesses: job 1 holds an unexpired
start-OTC session for code "482913" expiring at time 600. -/
def otcDb : DB :=
  { ips := [],
    jobs := [⟨1, "O", none, "created", some (otpHash "482913", 600), false⟩],
    logs := [], adminAssignments := [], nextJobId := 2 }

/-- C7 is refuted at a concrete input: verifying the unexpired session
with the wrong code "000000" returns false and leaves the store COMPLETELY
unchanged — in particular no attempt counter is incremented by one (the
job-scoped OTC state carries no `attempt_count` at all; that field exists
only on the phone-scoped login `otp_sessions` used by `OTPService`).  The
correct code still verifies afterwards. -/
theorem C7_wrong_code_increments_nothing :
    verify_start_otp otcDb 1 "000000" 60 = (false, otcDb) ∧
    (verify_start_otp otcDb 1 "482913" 60).1 = true := ⟨rfl, rfl⟩

/-- C7, amended: for an unexpired stored start-OTC session, verifying
with a non-matching code returns false and leaves the store unchanged
(no attempt counter exists on the job-scoped session, so nothing is
incremented), and the session stays retriable: any later verify with the
matching code before expiry returns true. -/
theorem C7_wrong_code_leaves_session_retriable :
    ∀ db jobId job storedHash expiry code now,
      findJob db jobId = some job →
      job.startOtp = some (storedHash, expiry) →
      ¬ expiry < now →
      otpVerify code storedHash = false →
      verify_start_otp db jobId code now = (false, db) ∧
      (∀ code2 now2, otpVerify code2 storedHash = true → ¬ expiry < now2 →
        (verify_start_otp db jobId code2 now2).1 = true) := by
  intro db jobId job storedHash expiry code now hfind hotp hexp hver
  constructor
  · unfold verify_start_otp
    simp only [hfind, hotp]
    rw [if_neg hexp]
    rw [if_pos (show (!(otpVerify code storedHash)) = true by rw [hver]; rfl)]
  · intro code2 now2 hv2 hexp2
    unfold verify_start_otp
    simp only [hfind, hotp]
    rw [if_neg hexp2]
    rw [if_neg (show ¬ ((!(otpVerify code2 storedHash)) = true) by rw [hv2]; simp)]

theorem C7_wrong_code_leaves_session_retriable_witness :
    verify_start_otp otcDb 1 "111111" 60 = (false, otcDb) :=
  (C7_wrong_code_leaves_session_retriable otcDb 1
    ⟨1, "O", none, "created", some (otpHash "482913", 600), false⟩
    (otpHash "482913") 600 "111111" 60 rfl rfl (by decide) (by decide)).1

/-- C8: a start-OTC session whose expiry lies in the past is invalidated
by the first verify, whatever code is submitted (even the correct one):
the verify returns false and clears the stored session — the observable
content of "marks the session used" — so every later verify against that
store also returns false, until `generate_and_store_start_otp` issues a
new code, after which the new code verifies true. -/
theorem C8_expired_session_invalidated :
    ∀ db jobId job storedHash expiry code now,
      findJob db jobId = some job →
      job.startOtp = some (storedHash, expiry) →
      expiry < now →
      verify_start_otp db jobId code now =
        (false, setJob db jobId (fun j => { j with startOtp := none })) ∧
      (∀ code2 now2,
        (verify_start_otp (verify_start_otp db jobId code now).2
          jobId code2 now2).1 = false) ∧
      (∀ newOtp now3 db3,
        generate_and_store_start_otp (verify_start_otp db jobId code now).2
            jobId newOtp now3 = some db3 →
        (verify_start_otp db3 jobId newOtp now3).1 = true) := by
  intro db jobId job storedHash expiry code now hfind hotp hexp
  have h1 : verify_start_otp db jobId code now =
      (false, setJob db jobId (fun j => { j with startOtp := none })) := by
    unfold verify_start_otp
    simp only [hfind, hotp]
    rw [if_pos hexp]
  have hpost : findJob (setJob db jobId (fun j => { j with startOtp := none }))
      jobId = some { job with startOtp := none } :=
    @findJob_setJob db jobId (fun j => { j with startOtp := none })
      (fun _ => rfl) job hfind
  refine ⟨h1, ?_, ?_⟩
  · intro code2 now2
    rw [h1]
    unfold verify_start_otp
    simp only [hpost]
  · intro newOtp now3 db3 hgen
    rw [h1] at hgen
    unfold generate_and_store_start_otp at hgen
    simp only [hpost, Option.some.injEq] at hgen
    subst hgen
    have hpost2 := @findJob_setJob
      (setJob db jobId (fun j => { j with startOtp := none })) jobId
      (fun j =>
        { j with startOtp := some (otpHash newOtp, now3 + OTP_EXPIRY_MINUTES),
                 startOtpVerified := false })
      (fun _ => rfl) { job with startOtp := none } hpost
    unfold verify_start_otp
    simp only [hpost2]
    rw [if_neg (Nat.not_lt.mpr (Nat.le_add_right now3 OTP_EXPIRY_MINUTES))]
    rw [if_neg (show ¬ ((!(otpVerify newOtp (otpHash newOtp))) = true) by
      simp [otpVerify])]

/-- Store for the C8 witness: job 1 holds a start-OTC session for code
"482913" that expired at time 10. -/
def expiredOtcDb : DB :=
  { ips := [],
    jobs := [⟨1, "E", none, "created", some (otpHash "482913", 10), false⟩],
    logs := [], adminAssignments := [], nextJobId := 2 }

theorem C8_expired_session_invalidated_witness :
    verify_start_otp expiredOtcDb 1 "482913" 60 =
      (false, setJob expiredOtcDb 1 (fun j => { j with startOtp := none })) :=
  (C8_expired_session_invalidated expiredOtcDb 1
    ⟨1, "E", none, "created", some (otpHash "482913", 10), false⟩
    (otpHash "482913") 10 "482913" 60 rfl rfl (by decide)).1

theorem map_guard_eq_self {l : List IpUser} {ipId : Nat} {f : IpUser → IpUser}
    (h : ∀ q ∈ l, q.id = ipId → f q = q) :
    l.map (fun p => if p.id == ipId then f p else p) = l := by
  induction l with
  | nil => rfl
  | cons a t ih =>
    rw [List.map_cons]
    by_cases ha : (a.id == ipId) = true
    · rw [if_pos ha, h a (List.mem_cons_self a t) (eq_of_beq ha),
          ih (fun q hq hid => h q (List.mem_cons_of_mem a hq) hid)]
    · rw [if_neg ha, ih (fun q hq hid => h q (List.mem_cons_of_mem a hq) hid)]

theorem setIp_eq_self {db : DB} {ipId : Nat} {f : IpUser → IpUser}
    (h : ∀ q ∈ db.ips, q.id = ipId → f q = q) : setIp db ipId f = db := by
  unfold setIp
  rw [map_guard_eq_self h]

theorem find?_ip_unique {l : List IpUser} {ipId : Nat} {p : IpUser}
    (hnd : (l.map (fun x => x.id)).Nodup)
    (hf : l.find? (fun x => x.id == ipId) = some p) :
    ∀ q ∈ l, q.id = ipId → q = p := by
  induction l with
  | nil => intro q hq _; exact absurd hq (List.not_mem_nil q)
  | cons a t ih =>
    rw [List.map_cons, List.nodup_cons] at hnd
    intro q hq hqid
    by_cases ha : (a.id == ipId) = true
    · simp only [List.find?_cons, ha] at hf
      obtain rfl : a = p := Option.some.inj hf
      rcases List.mem_cons.mp hq with rfl | hqt
      · rfl
      · exact absurd (by
          rw [show a.id = q.id from (eq_of_beq ha).trans hqid.symm]
          exact List.mem_map_of_mem (fun x => x.id) hqt) hnd.1
    · have ha' : (a.id == ipId) = false := by
        rwa [Bool.not_eq_true] at ha
      simp only [List.find?_cons, ha'] at hf
      rcases List.mem_cons.mp hq with rfl | hqt
      · exact absurd (show (q.id == ipId) = true by
          rw [hqid]; exact beq_self_eq_true ipId) ha
      · exact ih hnd.2 hf q hqt hqid

/-- C9: unassigning a partner whose `is_assigned` is already false (with
an authorized or superadmin caller, over a store with unique partner
ids) succeeds and returns the store completely unchanged — the partner
record is untouched, and therefore applying `unassign_ip` twice equals
applying it once. -/
theorem C9_unassign_idempotent :
    ∀ db ipId adminId isSuper p,
      (db.ips.map (fun x => x.id)).Nodup →
      findIp db ipId = some p →
      p.isAssigned = false →
      (isSuper || is_admin_allowed_for_ip db ipId adminId) = true →
      unassign_ip db ipId adminId isSuper = .ok db := by
  intro db ipId adminId isSuper p hnd hfind hass hauth
  have hself : setIp db ipId (fun q => { q with isAssigned := false }) = db := by
    apply setIp_eq_self
    intro q hq hqid
    have hq_eq : q = p := find?_ip_unique hnd hfind q hq hqid
    subst hq_eq
    cases q with
    | mk i b =>
      have hb : b = false := hass
      rw [hb]
  have hcond : (!isSuper && !(is_admin_allowed_for_ip db ipId adminId)) = false := by
    rw [← Bool.not_or, hauth]
    rfl
  unfold unassign_ip
  simp only [hfind]
  rw [if_neg (show ¬ ((!isSuper
      && !(is_admin_allowed_for_ip db ipId adminId)) = true) by
    rw [hcond]; simp)]
  rw [hself]

theorem C9_unassign_idempotent_witness :
    unassign_ip witnessDb 1 9 true = .ok witnessDb :=
  C9_unassign_idempotent witnessDb 1 9 true ⟨1, false⟩
    (by decide) rfl rfl rfl

theorem create_ok_frame {db db' : DB} {spec : JobCreateSpec} {userId : Nat}
    {isSuper : Bool} {now : Nat}
    (h : create_job db spec userId isSuper now = (db', none)) :
    db'.ips = db.ips ∧
    db'.jobs = db.jobs ++
      [⟨db.nextJobId, spec.name, spec.assignedIpId, "created", none, false⟩] := by
  have hbody := runTx_ok h
  unfold create_job_body at hbody
  rcases hsp : spec.assignedIpId with _ | ipId
  · rw [hsp] at hbody
    simp only [Except.ok.injEq] at hbody
    subst hbody
    exact ⟨rfl, by rw [← hsp]⟩
  · rw [hsp] at hbody
    simp only [] at hbody
    rcases hfind : findIp db ipId with _ | ipUser
    · simp only [hfind] at hbody
      exact Except.noConfusion hbody
    · simp only [hfind] at hbody
      by_cases ha : ipUser.isAssigned = true
      · rw [if_pos ha] at hbody
        exact Except.noConfusion hbody
      · rw [if_neg ha] at hbody
        by_cases hb : (!isSuper && !(is_admin_allowed_for_ip db ipId userId)) = true
        · rw [if_pos hb] at hbody
          exact Except.noConfusion hbody
        · rw [if_neg hb] at hbody
          simp only [Except.ok.injEq] at hbody
          subst hbody
          exact ⟨rfl, by rw [← hsp]⟩

theorem create_ok_partner_unassigned {db db' : DB} {spec : JobCreateSpec}
    {userId : Nat} {isSuper : Bool} {now : Nat} {ipId : Nat} {p : IpUser}
    (h : create_job db spec userId isSuper now = (db', none))
    (hsp : spec.assignedIpId = some ipId)
    (hfind : findIp db ipId = some p) : p.isAssigned = false := by
  have hbody := runTx_ok h
  unfold create_job_body at hbody
  rw [hsp] at hbody
  simp only [hfind] at hbody
  by_cases ha : p.isAssigned = true
  · rw [if_pos ha] at hbody
    exact Except.noConfusion hbody
  · rwa [Bool.not_eq_true] at ha

/-- C10: `create_job` never acquires the partner.  On success the
`ip_user` table is returned unchanged (the referenced partner keeps
`is_assigned = false`, which the passed validation guarantees) and the
inserted job has status `"created"`; when the spec references a partner
the operation only validates it, failing 404 if the partner is missing,
400 (conflict) if it is already assigned, and 403 if a non-superadmin
caller holds no authorization for it — in each case without creating the
job. -/
theorem C10_create_job_frame :
    (∀ db spec userId isSuper now db',
       create_job db spec userId isSuper now = (db', none) →
       db'.ips = db.ips ∧
       db'.jobs = db.jobs ++
         [⟨db.nextJobId, spec.name, spec.assignedIpId, "created", none, false⟩]) ∧
    (∀ db spec userId isSuper now db' ipId p,
       create_job db spec userId isSuper now = (db', none) →
       spec.assignedIpId = some ipId →
       findIp db ipId = some p →
       p.isAssigned = false ∧ findIp db' ipId = some p) ∧
    (∀ db spec userId isSuper now ipId,
       spec.assignedIpId = some ipId → findIp db ipId = none →
       create_job db spec userId isSuper now =
         (db, some ⟨404, "IP with ID " ++ toString ipId ++ " not found"⟩)) ∧
    (∀ db spec userId isSuper now ipId p,
       spec.assignedIpId = some ipId → findIp db ipId = some p →
       p.isAssigned = true →
       create_job db spec userId isSuper now =
         (db, some ⟨400, "IP " ++ toString p.id
           ++ " is already assigned to another job"⟩)) ∧
    (∀ db spec userId now ipId p,
       spec.assignedIpId = some ipId → findIp db ipId = some p →
       p.isAssigned = false →
       is_admin_allowed_for_ip db ipId userId = false →
       create_job db spec userId false now =
         (db, some ⟨403, "Admin " ++ toString userId
           ++ " is not allowed to be assigned IP " ++ toString ipId⟩)) := by
  refine ⟨?_, ?_, ?_, ?_, ?_⟩
  · intro db spec userId isSuper now db' h
    exact create_ok_frame h
  · intro db spec userId isSuper now db' ipId p h hsp hfind
    refine ⟨create_ok_partner_unassigned h hsp hfind, ?_⟩
    have hips := (create_ok_frame h).1
    unfold findIp at hfind ⊢
    rw [hips]
    exact hfind
  · intro db spec userId isSuper now ipId hsp hfind
    unfold create_job runTx create_job_body
    rw [hsp]
    simp only [hfind]
  · intro db spec userId isSuper now ipId p hsp hfind hass
    unfold create_job runTx create_job_body
    rw [hsp]
    simp only [hfind]
    rw [if_pos hass]
  · intro db spec userId now ipId p hsp hfind hass hallow
    unfold create_job runTx create_job_body
    rw [hsp]
    simp only [hfind]
    rw [if_neg (show ¬ (p.isAssigned = true) by rw [hass]; simp)]
    rw [if_pos (show (!false && !(is_admin_allowed_for_ip db ipId userId)) = true by
      rw [hallow]; rfl)]

theorem C10_create_job_frame_witness :
    (create_job witnessDb ⟨"W2", some 1⟩ 9 true 7).1.ips = witnessDb.ips ∧
    (create_job witnessDb ⟨"W2", some 1⟩ 9 true 7).1.jobs =
      witnessDb.jobs ++ [⟨2, "W2", some 1, "created", none, false⟩] :=
  C10_create_job_frame.1 witnessDb ⟨"W2", some 1⟩ 9 true 7
    (create_job witnessDb ⟨"W2", some 1⟩ 9 true 7).1 rfl

